import Mathlib

/-!
Shallow embedding of the judge core of this repository (src/main.rs and
src/c_testing.rs).  Pure data is translated directly; the effectful parts
(spawning the compiler, spawning the candidate program, reading files and
directories) are modelled by passing the observations those effects would
produce as explicit arguments.  JSON serialization by serde is modelled as
a JSON tree (pretty vs. compact printing differ only in whitespace, so the
tree is the faithful observable).
-/

namespace Alsit

/-- A JSON value, the codomain of the serde serializations the program
performs (`serde_json::to_string` / `to_string_pretty`). -/
inductive Json where
  | null : Json
  | str : String → Json
  | num : Nat → Json
  | arr : List Json → Json
  | obj : List (String × Json) → Json

/-- Rust `char::is_whitespace`: the Unicode White_Space property. -/
def rustIsWhitespace (c : Char) : Bool :=
  let n := c.toNat
  (0x9 ≤ n && n ≤ 0xD) || n == 0x20 || n == 0x85 || n == 0xA0 || n == 0x1680 ||
  (0x2000 ≤ n && n ≤ 0x200A) || n == 0x2028 || n == 0x2029 || n == 0x202F ||
  n == 0x205F || n == 0x3000

/-- Rust `str::trim`: remove leading and trailing whitespace characters. -/
def rustTrim (s : String) : String :=
  String.mk (((s.data.dropWhile rustIsWhitespace).reverse.dropWhile rustIsWhitespace).reverse)

/-- Rust `str::parse::<u64>`: an optional leading `+`, then one or more
ASCII digits, value below 2^64. -/
def parseU64 (s : String) : Option Nat :=
  let ds := match s.data with
            | '+' :: rest => rest
            | l => l
  if ds ≠ [] && ds.all (·.isDigit) then
    let v := ds.foldl (fun acc c => acc * 10 + (c.toNat - 48)) 0
    if v < 2 ^ 64 then some v else none
  else none

/-- Is a byte a UTF-8 continuation byte (10xxxxxx)? -/
def utf8Cont (b : Nat) : Bool := 0x80 ≤ b && b < 0xC0

/-- Rust `String::from_utf8` validation/decoding, char by char: rejects
stray continuation bytes, overlong encodings, surrogates and code points
above U+10FFFF. -/
def decodeUtf8Chars : List Nat → Option (List Char)
  | [] => some []
  | b :: rest =>
    if b < 0x80 then
      (decodeUtf8Chars rest).map (fun cs => Char.ofNat b :: cs)
    else if b < 0xC2 then none
    else if b < 0xE0 then
      match rest with
      | b1 :: rest2 =>
        if utf8Cont b1 then
          (decodeUtf8Chars rest2).map (fun cs => Char.ofNat ((b - 0xC0) * 64 + (b1 - 0x80)) :: cs)
        else none
      | [] => none
    else if b < 0xF0 then
      match rest with
      | b1 :: b2 :: rest3 =>
        if utf8Cont b1 && utf8Cont b2 then
          let cp := (b - 0xE0) * 4096 + (b1 - 0x80) * 64 + (b2 - 0x80)
          if cp < 0x800 || (0xD800 ≤ cp && cp < 0xE000) then none
          else (decodeUtf8Chars rest3).map (fun cs => Char.ofNat cp :: cs)
        else none
      | _ => none
    else if b < 0xF5 then
      match rest with
      | b1 :: b2 :: b3 :: rest4 =>
        if utf8Cont b1 && utf8Cont b2 && utf8Cont b3 then
          let cp := (b - 0xF0) * 262144 + (b1 - 0x80) * 4096 + (b2 - 0x80) * 64 + (b3 - 0x80)
          if cp < 0x10000 || 0x10FFFF < cp then none
          else (decodeUtf8Chars rest4).map (fun cs => Char.ofNat cp :: cs)
        else none
      | _ => none
    else none

/-- Rust `String::from_utf8` on a byte vector. -/
def decodeUtf8 (bs : List Nat) : Option String :=
  (decodeUtf8Chars bs).map String.mk

/-! ## Data model of src/c_testing.rs -/

/-- `enum CompilationResult` of c_testing.rs. -/
inductive CompilationResult where
  | Successful : CompilationResult
  | CompilationError : String → CompilationResult
deriving DecidableEq, Repr

/-- `enum TestOutcome` of c_testing.rs (note: unit variants carry nothing;
there is no MemoryExceeded variant and no payload on Timeout or
InternalError). -/
inductive TestOutcome where
  | Success : TestOutcome
  | Timeout : TestOutcome
  | WrongOutput : String → String → TestOutcome
  | SlightlyWrongOutput : String → String → TestOutcome
  | InternalError : TestOutcome
deriving DecidableEq, Repr

/-- `enum TestError` of c_testing.rs. -/
inductive TestError where
  | WritingStdin : TestError
  | SignalKill : TestError
  | ReadingStdout : TestError
deriving DecidableEq, Repr

/-- `struct InitialError` of c_testing.rs. -/
structure InitialError where
  compilation_message : Option String
  internal_error : Option String
deriving DecidableEq, Repr

/-- `struct OneTestResult` of c_testing.rs. -/
structure OneTestResult where
  test_id : Nat
  test_result : TestOutcome
deriving DecidableEq, Repr

/-- `diff_result` of c_testing.rs: the verdict classifier. -/
def diff_result (expected : String) (outcome : String) : TestOutcome :=
  if expected = outcome then
    TestOutcome.Success
  else if rustTrim expected = outcome then
    TestOutcome.SlightlyWrongOutput expected outcome
  else
    TestOutcome.WrongOutput expected outcome

/-! ## Serde serialization of the output types (externally tagged enums,
field order as declared in the Rust source). -/

/-- serde JSON encoding of `TestOutcome`: unit variants as a bare string,
struct variants externally tagged. -/
def serializeTestOutcome : TestOutcome → Json
  | .Success => .str "Success"
  | .Timeout => .str "Timeout"
  | .WrongOutput e g =>
      .obj [("WrongOutput", .obj [("expected", .str e), ("got", .str g)])]
  | .SlightlyWrongOutput e g =>
      .obj [("SlightlyWrongOutput", .obj [("expected", .str e), ("got", .str g)])]
  | .InternalError => .str "InternalError"

/-- serde JSON encoding of `Option<String>`. -/
def serializeOptString : Option String → Json
  | none => .null
  | some s => .str s

/-- serde JSON encoding of `OneTestResult`. -/
def serializeOneTestResult (r : OneTestResult) : Json :=
  .obj [("test_id", .num r.test_id), ("test_result", serializeTestOutcome r.test_result)]

/-- serde JSON encoding of `InitialError`. -/
def serializeInitialError (e : InitialError) : Json :=
  .obj [("compilation_message", serializeOptString e.compilation_message),
        ("internal_error", serializeOptString e.internal_error)]

/-- serde JSON encoding of `LinkedList<OneTestResult>`. -/
def serializeList (l : List OneTestResult) : Json :=
  .arr (l.map serializeOneTestResult)

/-! ## The process world

The effectful parts of the program observe an external world: the compiler
process, the test directory, the test files, and one child process per
executed test.  Each observation is passed explicitly. -/

/-- A file path inside the test directory, as the program uses it: a file
name split into its stem and its (final) extension, mirroring the
`Path::extension` / `PathBuf::set_extension` / `Path::file_name` calls the
source performs on directory entries. -/
structure RPath where
  stem : String
  ext : Option String
deriving DecidableEq, Repr

/-- `Path::extension`. -/
def RPath.extension (p : RPath) : Option String := p.ext

/-- `PathBuf::set_extension` (the empty string removes the extension). -/
def RPath.setExtension (p : RPath) (e : String) : RPath :=
  { p with ext := if e = "" then none else some e }

/-- `get_id` of c_testing.rs: strip the extension and parse the remaining
file name as a `u64`.  The source `unwrap`s the parse (panicking on
failure); the panic is modelled as `none`. -/
def get_id (p : RPath) : Option Nat :=
  parseU64 (p.setExtension "").stem

/-- What `Command::output()` for the compiler invocation yields when the
process could be started: `output.status.code()` (None when terminated by a
signal) and the raw bytes of its standard error. -/
structure CompileOutput where
  code : Option Int
  stderr : List Nat

/-- Observable behaviour of one spawned candidate process:
`stdinWrite` is the result of `write_all` of the test input,
`wait` the result of `wait_timeout` with the configured limit
(`none` = timed out; `some none` = exited with no observable code, i.e.
signal death; `some (some c)` = exit code `c`), `stdoutRead` the result of
`read_to_string` on its standard output, and `killResult` the (ignored)
result of `kill()`. -/
structure ProcObs where
  stdinWrite : String → Except Unit Unit
  wait : Nat → Option (Option Int)
  stdoutRead : Except Unit String
  killResult : Except Unit Unit

/-- `test` of c_testing.rs. The second component of the result records
whether `kill()` was invoked on the child (its result is discarded by the
source, hence `killResult` is never consulted). -/
def test (timeoutMillis : Nat) (fs : RPath → String) (obs : ProcObs)
    (in_file out_file : RPath) : Except TestError TestOutcome × Bool :=
  let in_content := fs in_file
  let out_content := fs out_file
  match obs.stdinWrite in_content with
  | .error _ => (.error .WritingStdin, false)
  | .ok _ =>
    match obs.wait timeoutMillis with
    | some status =>
      match status with
      | some _ =>
        match obs.stdoutRead with
        | .error _ => (.error .ReadingStdout, false)
        | .ok output => (.ok (diff_result out_content output), false)
      | none => (.error .SignalKill, false)
    | none => (.ok .Timeout, true)

/-! ## The aggregation loop of `run_testing` -/

/-- Stable insertion (Rust `sort_by` is stable): an element goes before the
first element with a strictly larger id. -/
def insertById (x : RPath × Nat) : List (RPath × Nat) → List (RPath × Nat)
  | [] => [x]
  | y :: ys => if x.2 ≤ y.2 then x :: y :: ys else y :: insertById x ys

/-- `in_files.sort_by(|x, y| get_id(x).cmp(&get_id(y)))`, on entries already
tagged with their parsed id. -/
def sortById : List (RPath × Nat) → List (RPath × Nat)
  | [] => []
  | x :: xs => insertById x (sortById xs)

/-- The `for file in in_files` loop of `run_testing`, applied to the
(id, test result) of each discovered file in execution order: append
Success entries and continue; on an Err append `InternalError` and break;
on any other Ok outcome append it and break. -/
def failFast : List (Nat × Except TestError TestOutcome) → List OneTestResult
  | [] => []
  | (i, r) :: rest =>
    match r with
    | .error _ => [⟨i, .InternalError⟩]
    | .ok .Success => ⟨i, .Success⟩ :: failFast rest
    | .ok o => [⟨i, o⟩]

/-- The discovery phase of `run_testing`: keep the files whose extension is
`in`, tag each with its parsed id (`none` models the panic of an
unparsable stem), and sort by id ascending. -/
def discoveredSorted (files : List RPath) : Option (List (RPath × Nat)) :=
  ((files.filter (fun p => p.extension == some "in")).mapM
      (fun p => (get_id p).map (Prod.mk p))).map sortById

/-- `run_testing` of c_testing.rs.  `dirRead` is the result of
`read_dir(TEST_PATH)`; `env` gives the observable behaviour of the child
process spawned for a given input file; `fs` gives the contents
`read_to_string` returns for a file.  The overall `none` models the panic
on an unparsable file stem; otherwise the source always returns `Ok` once
the directory was readable. -/
def run_testing (timeoutMillis : Nat) (dirRead : Except Unit (List RPath))
    (env : RPath → ProcObs) (fs : RPath → String) :
    Option (Except String (List OneTestResult)) :=
  match dirRead with
  | .error _ => some (.error "Error while scanning directory.")
  | .ok files =>
    match discoveredSorted files with
    | none => none
    | some sorted =>
      some (.ok (failFast (sorted.map
        (fun q => (q.2, (test timeoutMillis fs (env q.1) q.1 (q.1.setExtension "out")).1)))))

/-- `compile` of c_testing.rs, over the observation of the compiler
process (`Err ()` = the toolchain could not be started at all). -/
def compile (obs : Except Unit CompileOutput) : Except String CompilationResult :=
  match obs with
  | .error _ => .error "Internal error occured while starting compilation process."
  | .ok output =>
    match output.code with
    | some code =>
      if code = 0 then .ok .Successful
      else
        match decodeUtf8 output.stderr with
        | some s => .ok (.CompilationError s)
        | none => .error "Compilation message couldn't be converted into UTF-8 string."
    | none => .error "Compilation process terminated by sginal."

/-- `invoke_testing` of c_testing.rs, returning the JSON tree of the string
it produces (`to_string_pretty` and `to_string` differ only in whitespace).
`none` models the panic of `run_testing` on an unparsable file stem. -/
def invoke_testing (timeoutMillis : Nat) (cobs : Except Unit CompileOutput)
    (dirRead : Except Unit (List RPath)) (env : RPath → ProcObs)
    (fs : RPath → String) : Option Json :=
  match compile cobs with
  | .ok .Successful =>
    match run_testing timeoutMillis dirRead env fs with
    | none => none
    | some (.error error) => some (serializeInitialError ⟨none, some error⟩)
    | some (.ok list) => some (serializeList list)
  | .ok (.CompilationError error) => some (serializeInitialError ⟨some error, none⟩)
  | .error error => some (serializeInitialError ⟨none, some error⟩)

/-! ## Shape predicates on the produced JSON -/

mutual

/-- Does a key occur anywhere in a JSON tree (at any depth)? -/
def jsonMentionsKey (k : String) : Json → Bool
  | .null => false
  | .str _ => false
  | .num _ => false
  | .arr xs => jsonListMentionsKey k xs
  | .obj kvs => jsonObjMentionsKey k kvs

def jsonListMentionsKey (k : String) : List Json → Bool
  | [] => false
  | j :: js => jsonMentionsKey k j || jsonListMentionsKey k js

def jsonObjMentionsKey (k : String) : List (String × Json) → Bool
  | [] => false
  | (k2, v) :: rest => k == k2 || jsonMentionsKey k v || jsonObjMentionsKey k rest

end

mutual

/-- Does a number occur anywhere in a JSON tree (as a `num` leaf)? -/
def jsonMentionsNat (n : Nat) : Json → Bool
  | .null => false
  | .str _ => false
  | .num m => m == n
  | .arr xs => jsonListMentionsNat n xs
  | .obj kvs => jsonObjMentionsNat n kvs

def jsonListMentionsNat (n : Nat) : List Json → Bool
  | [] => false
  | j :: js => jsonMentionsNat n j || jsonListMentionsNat n js

def jsonObjMentionsNat (n : Nat) : List (String × Json) → Bool
  | [] => false
  | (_, v) :: rest => jsonMentionsNat n v || jsonObjMentionsNat n rest

end

/-- Is a JSON value `null`? -/
def jsonIsNull : Json → Bool
  | .null => true
  | _ => false

/-- The spec's three tagged top-level report shapes (§3, §6): a one-key
object tagged `CompilationProblem`, `InternalProblem` or `TestingResult`.
This definition follows the spec's words, to be compared with what the
code emits. -/
def specReportShape : Json → Bool
  | .obj [(k, _)] =>
      k == "CompilationProblem" || k == "InternalProblem" || k == "TestingResult"
  | _ => false

/-- The shape `invoke_testing` actually emits on the error paths: the
serde encoding of `InitialError`, with exactly one of the two fields
non-null. -/
def isInitialErrorReport : Json → Bool
  | .obj [(k1, cm), (k2, ie)] =>
      k1 == "compilation_message" && k2 == "internal_error" &&
        ((jsonIsNull cm).xor (jsonIsNull ie))
  | _ => false

/-- One serialized `OneTestResult` entry. -/
def isTestEntry : Json → Bool
  | .obj [(k1, .num _), (k2, _)] => k1 == "test_id" && k2 == "test_result"
  | _ => false

/-- The shape `invoke_testing` actually emits when testing ran: a bare
array of per-test entries. -/
def isTestArray : Json → Bool
  | .arr xs => xs.all isTestEntry
  | _ => false

/-! ## Concrete process observations, used to evaluate the model -/

/-- A child process that accepts its input, exits at once with code 0 and
prints `x`. -/
def obsAllOk : ProcObs :=
  ⟨fun _ => .ok (), fun _ => some (some 0), .ok "x", .ok ()⟩

/-- A child process that never finishes within the limit. -/
def obsTimedOut : ProcObs :=
  ⟨fun _ => .ok (), fun _ => none, .ok "x", .ok ()⟩

/-- A child process whose standard input cannot be written. -/
def obsStdinFail : ProcObs :=
  ⟨fun _ => .error (), fun _ => some (some 0), .ok "x", .ok ()⟩

/-- A child process that dies of a signal (no observable exit code). -/
def obsSignalled : ProcObs :=
  ⟨fun _ => .ok (), fun _ => some none, .ok "x", .ok ()⟩

/-- A child process that exits with the non-zero code 3 and prints `y`. -/
def obsExit3 : ProcObs :=
  ⟨fun _ => .ok (), fun _ => some (some 3), .ok "y", .ok ()⟩

/-! ## Claims -/

/-- C1: `diff_result` returns `Success` iff `expected == actual`; it
returns `SlightlyWrongOutput{expected, got: actual}` iff the two differ
and `expected.trim()` (only `expected` is trimmed) equals `actual`; and it
returns `WrongOutput{expected, got: actual}` in exactly the remaining
cases. -/
theorem diff_result_classification (e a : String) :
    (diff_result e a = TestOutcome.Success ↔ e = a) ∧
    (diff_result e a = TestOutcome.SlightlyWrongOutput e a ↔ (e ≠ a ∧ rustTrim e = a)) ∧
    (diff_result e a = TestOutcome.WrongOutput e a ↔ (e ≠ a ∧ rustTrim e ≠ a)) := by
  by_cases h1 : e = a <;> by_cases h2 : rustTrim e = a <;>
    simp [diff_result, h1, h2]

/-- C10: the classifier is total and every result is one of the three
variants `Success`, `SlightlyWrongOutput` or `WrongOutput` (never
`Timeout` or `InternalError`), and in both mismatch variants the fields
are exactly the strings passed in, unmodified. -/
theorem diff_result_total (e a : String) :
    diff_result e a = TestOutcome.Success ∨
    diff_result e a = TestOutcome.SlightlyWrongOutput e a ∨
    diff_result e a = TestOutcome.WrongOutput e a := by
  unfold diff_result
  split_ifs <;> simp

/-- C2: in the aggregation loop, a non-`Success` outcome is appended and
the loop stops — the produced sequence does not depend on what any later
test would do — and consequently every element of the produced sequence
except possibly the last has outcome `Success`. -/
theorem failFast_stops_on_failure :
    (∀ xs : List (Nat × Except TestError TestOutcome),
      ∀ r ∈ (failFast xs).dropLast, r.test_result = TestOutcome.Success) ∧
    (∀ (pre : List (Nat × Except TestError TestOutcome)) (i : Nat) (o : TestOutcome)
      (tail tail2 : List (Nat × Except TestError TestOutcome)),
      (∀ x ∈ pre, x.2 = Except.ok TestOutcome.Success) → o ≠ TestOutcome.Success →
      failFast (pre ++ (i, Except.ok o) :: tail)
        = pre.map (fun x => ⟨x.1, TestOutcome.Success⟩) ++ [⟨i, o⟩] ∧
      failFast (pre ++ (i, Except.ok o) :: tail)
        = failFast (pre ++ (i, Except.ok o) :: tail2)) := by
  constructor
  · intro xs
    induction xs with
    | nil => simp [failFast]
    | cons hd tl ih =>
      obtain ⟨i, r⟩ := hd
      cases r with
      | error e => simp [failFast]
      | ok o =>
        cases o with
        | Success =>
          intro r hr
          rw [show failFast ((i, Except.ok TestOutcome.Success) :: tl)
                = ⟨i, TestOutcome.Success⟩ :: failFast tl from rfl] at hr
          cases h : failFast tl with
          | nil => rw [h] at hr; simp at hr
          | cons y ys =>
            rw [h] at hr
            rw [show (OneTestResult.mk i TestOutcome.Success :: y :: ys).dropLast
                  = ⟨i, TestOutcome.Success⟩ :: (y :: ys).dropLast from rfl] at hr
            rcases List.mem_cons.mp hr with rfl | hr
            · rfl
            · exact ih r (h ▸ hr)
        | Timeout => simp [failFast]
        | WrongOutput a b => simp [failFast]
        | SlightlyWrongOutput a b => simp [failFast]
        | InternalError => simp [failFast]
  · intro pre i o tail tail2
    induction pre with
    | nil =>
      intro _ ho
      cases o with
      | Success => exact absurd rfl ho
      | Timeout => exact ⟨rfl, rfl⟩
      | WrongOutput a b => exact ⟨rfl, rfl⟩
      | SlightlyWrongOutput a b => exact ⟨rfl, rfl⟩
      | InternalError => exact ⟨rfl, rfl⟩
    | cons x pre2 ih =>
      intro hpre ho
      have hx : x.2 = Except.ok TestOutcome.Success := hpre x (List.mem_cons_self _ _)
      have hrest : ∀ y ∈ pre2, y.2 = Except.ok TestOutcome.Success :=
        fun y hy => hpre y (List.mem_cons_of_mem _ hy)
      obtain ⟨he, hind⟩ := ih hrest ho
      obtain ⟨xi, xr⟩ := x
      simp only at hx
      subst hx
      refine ⟨?_, ?_⟩
      · rw [show failFast ((xi, Except.ok TestOutcome.Success) :: pre2 ++ (i, Except.ok o) :: tail)
              = ⟨xi, TestOutcome.Success⟩ :: failFast (pre2 ++ (i, Except.ok o) :: tail) from rfl,
            he]
        simp
      · rw [show failFast ((xi, Except.ok TestOutcome.Success) :: pre2 ++ (i, Except.ok o) :: tail)
              = ⟨xi, TestOutcome.Success⟩ :: failFast (pre2 ++ (i, Except.ok o) :: tail) from rfl,
            show failFast ((xi, Except.ok TestOutcome.Success) :: pre2 ++ (i, Except.ok o) :: tail2)
              = ⟨xi, TestOutcome.Success⟩ :: failFast (pre2 ++ (i, Except.ok o) :: tail2) from rfl,
            hind]

/-- Witness for C2 at a concrete three-test run: the second test times
out, the produced sequence is the first two entries, and all entries
before the last are `Success`. -/
theorem failFast_stops_on_failure_witness :
    failFast [(1, Except.ok TestOutcome.Success), (2, Except.ok TestOutcome.Timeout),
              (3, Except.ok TestOutcome.Success)]
      = [⟨1, TestOutcome.Success⟩, ⟨2, TestOutcome.Timeout⟩] :=
  (failFast_stops_on_failure.2 [(1, Except.ok TestOutcome.Success)] 2 TestOutcome.Timeout
    [(3, Except.ok TestOutcome.Success)] [] (by simp) (by decide)).1

/-- C9 counterexample: at a one-test directory, a stdin-write failure and
a signal death produce bit-for-bit the same report entry — a bare
`InternalError` tag with no description of the failure — and the report
contains no run-level `testing_outcome` at all.  This refutes "appends an
InternalError entry carrying a human-readable description of the failure"
and "the run-level TestingOutcome is InternalError". -/
theorem internal_error_entry_bare :
    run_testing 1000 (Except.ok [⟨"1", some "in"⟩]) (fun _ => obsStdinFail) (fun _ => "x")
      = some (Except.ok [⟨1, TestOutcome.InternalError⟩]) ∧
    run_testing 1000 (Except.ok [⟨"1", some "in"⟩]) (fun _ => obsSignalled) (fun _ => "x")
      = some (Except.ok [⟨1, TestOutcome.InternalError⟩]) ∧
    serializeOneTestResult ⟨1, TestOutcome.InternalError⟩
      = Json.obj [("test_id", Json.num 1), ("test_result", Json.str "InternalError")] ∧
    jsonMentionsKey "testing_outcome" (serializeList [⟨1, TestOutcome.InternalError⟩]) = false :=
  ⟨rfl, rfl, rfl, rfl⟩

/-- C9 (amended): when the Process Runner signals an internal failure on a
test, the Aggregator appends an `InternalError` entry — which carries no
description and is the same whichever of the three failures occurred — and
executes no further test cases (the result does not depend on any later
test); no run-level outcome is part of the report. -/
theorem failFast_internal_error (pre : List (Nat × Except TestError TestOutcome))
    (i : Nat) (err err2 : TestError)
    (tail tail2 : List (Nat × Except TestError TestOutcome))
    (hpre : ∀ x ∈ pre, x.2 = Except.ok TestOutcome.Success) :
    failFast (pre ++ (i, Except.error err) :: tail)
      = pre.map (fun x => ⟨x.1, TestOutcome.Success⟩) ++ [⟨i, TestOutcome.InternalError⟩] ∧
    failFast (pre ++ (i, Except.error err) :: tail)
      = failFast (pre ++ (i, Except.error err2) :: tail2) := by
  revert hpre
  induction pre with
  | nil => exact fun _ => ⟨rfl, rfl⟩
  | cons x pre2 ih =>
    intro hpre
    have hx : x.2 = Except.ok TestOutcome.Success := hpre x (List.mem_cons_self _ _)
    have hrest : ∀ y ∈ pre2, y.2 = Except.ok TestOutcome.Success :=
      fun y hy => hpre y (List.mem_cons_of_mem _ hy)
    obtain ⟨he, hind⟩ := ih hrest
    obtain ⟨xi, xr⟩ := x
    simp only at hx
    subst hx
    refine ⟨?_, ?_⟩
    · rw [show failFast ((xi, Except.ok TestOutcome.Success) :: pre2 ++ (i, Except.error err) :: tail)
            = ⟨xi, TestOutcome.Success⟩ :: failFast (pre2 ++ (i, Except.error err) :: tail) from rfl,
          he]
      simp
    · rw [show failFast ((xi, Except.ok TestOutcome.Success) :: pre2 ++ (i, Except.error err) :: tail)
            = ⟨xi, TestOutcome.Success⟩ :: failFast (pre2 ++ (i, Except.error err) :: tail) from rfl,
          show failFast ((xi, Except.ok TestOutcome.Success) :: pre2 ++ (i, Except.error err2) :: tail2)
            = ⟨xi, TestOutcome.Success⟩ :: failFast (pre2 ++ (i, Except.error err2) :: tail2) from rfl,
          hind]

/-- Witness for the amended C9 at a concrete input: one successful test,
then a stdin-write failure; the sequence ends with a bare `InternalError`
entry. -/
theorem failFast_internal_error_witness :
    failFast [(1, Except.ok TestOutcome.Success), (2, Except.error TestError.WritingStdin),
              (3, Except.ok TestOutcome.Success)]
      = [⟨1, TestOutcome.Success⟩, ⟨2, TestOutcome.InternalError⟩] :=
  (failFast_internal_error [(1, Except.ok TestOutcome.Success)] 2 TestError.WritingStdin
    TestError.SignalKill [(3, Except.ok TestOutcome.Success)] [] (by simp)).1

/-- C6 counterexample: at a run with configured limit 1000 ms whose child
does not finish in time, the outcome is the unit variant `Timeout` whose
report entry is the bare tag — the configured limit (1000) appears nowhere
in it.  This refutes "the outcome is Timeout carrying the configured time
limit for reporting". -/
theorem timeout_carries_no_limit :
    test 1000 (fun _ => "x") obsTimedOut ⟨"1", some "in"⟩ ⟨"1", some "out"⟩
      = (Except.ok TestOutcome.Timeout, true) ∧
    serializeOneTestResult ⟨1, TestOutcome.Timeout⟩
      = Json.obj [("test_id", Json.num 1), ("test_result", Json.str "Timeout")] ∧
    jsonMentionsNat 1000 (serializeOneTestResult ⟨1, TestOutcome.Timeout⟩) = false :=
  ⟨rfl, rfl, rfl⟩

/-- C6 (amended): whenever the child process does not complete within the
configured timeout, a kill is attempted — whatever its result, which the
code discards — and the test's outcome is `Timeout`, a unit variant whose
report entry carries no payload (in particular not the configured limit). -/
theorem timeout_kills_and_reports (timeoutMillis : Nat) (fs : RPath → String)
    (obs : ProcObs) (pin pout : RPath)
    (h1 : obs.stdinWrite (fs pin) = Except.ok ())
    (h2 : obs.wait timeoutMillis = none) :
    test timeoutMillis fs obs pin pout = (Except.ok TestOutcome.Timeout, true) ∧
    serializeTestOutcome TestOutcome.Timeout = Json.str "Timeout" := by
  refine ⟨?_, rfl⟩
  simp only [test, h1, h2]

/-- Witness for the amended C6: a concrete timed-out child with limit
1000 ms. -/
theorem timeout_kills_and_reports_witness :
    test 1000 (fun _ => "x") obsTimedOut ⟨"2", some "in"⟩ ⟨"2", some "out"⟩
      = (Except.ok TestOutcome.Timeout, true) ∧
    serializeTestOutcome TestOutcome.Timeout = Json.str "Timeout" :=
  timeout_kills_and_reports 1000 (fun _ => "x") obsTimedOut ⟨"2", some "in"⟩ ⟨"2", some "out"⟩
    rfl rfl

/-- C8: when the child exits within the timeout with an observable exit
code — zero or not — standard output is read and handed to the classifier
(`diff_result`); a failing stdout read is `ReadingStdout`; only the
absence of an exit code (signal death) is the distinct failure
`SignalKill`. -/
theorem exit_code_goes_to_classifier (timeoutMillis : Nat) (fs : RPath → String)
    (obs : ProcObs) (pin pout : RPath)
    (h1 : obs.stdinWrite (fs pin) = Except.ok ()) :
    (∀ c : Int, obs.wait timeoutMillis = some (some c) →
      (∀ out, obs.stdoutRead = Except.ok out →
        test timeoutMillis fs obs pin pout = (Except.ok (diff_result (fs pout) out), false)) ∧
      (obs.stdoutRead = Except.error () →
        test timeoutMillis fs obs pin pout = (Except.error TestError.ReadingStdout, false))) ∧
    (obs.wait timeoutMillis = some none →
      test timeoutMillis fs obs pin pout = (Except.error TestError.SignalKill, false)) := by
  constructor
  · intro c hc
    constructor
    · intro out hout
      simp only [test, h1, hc, hout]
    · intro hout
      simp only [test, h1, hc, hout]
  · intro hsig
    simp only [test, h1, hsig]

/-- Witness for C8: a child that exits with the non-zero code 3 and prints
`y` against expected output `x` is classified (as `WrongOutput`), not
treated as a failure class. -/
theorem exit_code_goes_to_classifier_witness :
    test 1000 (fun _ => "x") obsExit3 ⟨"1", some "in"⟩ ⟨"1", some "out"⟩
      = (Except.ok (diff_result "x" "y"), false) :=
  ((exit_code_goes_to_classifier 1000 (fun _ => "x") obsExit3 ⟨"1", some "in"⟩
      ⟨"1", some "out"⟩ rfl).1 3 rfl).1 "y" rfl

/-- Every serialized `OneTestResult` has the test-entry shape. -/
theorem isTestEntry_serialize (r : OneTestResult) :
    isTestEntry (serializeOneTestResult r) = true := by
  obtain ⟨i, o⟩ := r
  cases o <;> rfl

/-- Every serialized test list is an array of test entries. -/
theorem isTestArray_serializeList (l : List OneTestResult) :
    isTestArray (serializeList l) = true := by
  simp only [isTestArray, serializeList, List.all_eq_true]
  intro j hj
  obtain ⟨r, _, rfl⟩ := List.mem_map.mp hj
  exact isTestEntry_serialize r

/-- No serialized test entry mentions the key `testing_outcome`. -/
theorem entry_no_testing_outcome (r : OneTestResult) :
    jsonMentionsKey "testing_outcome" (serializeOneTestResult r) = false := by
  obtain ⟨i, o⟩ := r
  cases o <;> rfl

/-- No serialized test list mentions the key `testing_outcome`. -/
theorem list_no_testing_outcome (l : List OneTestResult) :
    jsonMentionsKey "testing_outcome" (serializeList l) = false := by
  induction l with
  | nil => rfl
  | cons r rest ih =>
    simp only [serializeList, List.map] at ih ⊢
    rw [show jsonMentionsKey "testing_outcome" (Json.arr (serializeOneTestResult r :: rest.map serializeOneTestResult))
          = (jsonMentionsKey "testing_outcome" (serializeOneTestResult r)
              || jsonListMentionsKey "testing_outcome" (rest.map serializeOneTestResult)) from rfl,
        entry_no_testing_outcome r]
    rw [show jsonMentionsKey "testing_outcome" (Json.arr (rest.map serializeOneTestResult))
          = jsonListMentionsKey "testing_outcome" (rest.map serializeOneTestResult) from rfl] at ih
    simp [ih]

/-- C5: when the toolchain exits non-zero with an observable code, the
report carries the stderr stream decoded as text as its compilation
diagnostic, contains no test entry, and no test is executed (the output
does not depend on the test directory, the processes or the files); when
that stream is not valid UTF-8, the run fails as an internal problem
instead. -/
theorem compile_error_reported (timeoutMillis : Nat) (code : Int) (stderrBytes : List Nat)
    (dirRead dirRead2 : Except Unit (List RPath)) (env env2 : RPath → ProcObs)
    (fs fs2 : RPath → String) (s : String)
    (hc : code ≠ 0) :
    (decodeUtf8 stderrBytes = some s →
      invoke_testing timeoutMillis (Except.ok ⟨some code, stderrBytes⟩) dirRead env fs
        = some (serializeInitialError ⟨some s, none⟩) ∧
      jsonMentionsKey "test_id" (serializeInitialError ⟨some s, none⟩) = false ∧
      invoke_testing timeoutMillis (Except.ok ⟨some code, stderrBytes⟩) dirRead env fs
        = invoke_testing timeoutMillis (Except.ok ⟨some code, stderrBytes⟩) dirRead2 env2 fs2) ∧
    (decodeUtf8 stderrBytes = none →
      invoke_testing timeoutMillis (Except.ok ⟨some code, stderrBytes⟩) dirRead env fs
        = some (serializeInitialError
            ⟨none, some "Compilation message couldn't be converted into UTF-8 string."⟩)) := by
  constructor
  · intro hdec
    have hcomp : compile (Except.ok ⟨some code, stderrBytes⟩)
        = Except.ok (CompilationResult.CompilationError s) := by
      simp only [compile, hdec, if_neg hc]
    refine ⟨?_, rfl, ?_⟩
    · simp only [invoke_testing, hcomp]
    · simp only [invoke_testing, hcomp]
  · intro hdec
    have hcomp : compile (Except.ok ⟨some code, stderrBytes⟩)
        = Except.error "Compilation message couldn't be converted into UTF-8 string." := by
      simp only [compile, hdec, if_neg hc]
    simp only [invoke_testing, hcomp]

/-- Witness for C5 at a concrete input: exit code 1 with the non-UTF-8
stderr byte 0xFF makes the run fail as an internal problem. -/
theorem compile_error_reported_witness :
    (1 : Int) ≠ 0 ∧
    invoke_testing 7 (Except.ok ⟨some 1, [255]⟩) (Except.ok []) (fun _ => obsAllOk)
        (fun _ => "")
      = some (serializeInitialError
          ⟨none, some "Compilation message couldn't be converted into UTF-8 string."⟩) :=
  ⟨by decide,
   (compile_error_reported 7 1 [255] (Except.ok []) (Except.ok []) (fun _ => obsAllOk)
      (fun _ => obsAllOk) (fun _ => "") (fun _ => "") "" (by decide)).2 rfl⟩

/-- C3 counterexample: a run whose compilation fails with diagnostic
`boom` produces the report `{"compilation_message": "boom",
"internal_error": null}` — not one of the three tagged top-level shapes
`CompilationProblem` / `InternalProblem` / `TestingResult` the claim
states (the `ProgramResult` enum declared in main.rs is never
constructed). -/
theorem report_not_tagged_shape :
    invoke_testing 1000 (Except.ok ⟨some 1, [98, 111, 111, 109]⟩) (Except.ok [])
        (fun _ => obsAllOk) (fun _ => "")
      = some (Json.obj [("compilation_message", Json.str "boom"), ("internal_error", Json.null)]) ∧
    specReportShape
        (Json.obj [("compilation_message", Json.str "boom"), ("internal_error", Json.null)])
      = false :=
  ⟨rfl, rfl⟩

/-- C3 (amended): every invocation that returns (does not panic) produces
exactly one report, and its top-level JSON shape is either the
`InitialError` object — keys `compilation_message` and `internal_error`,
exactly one of them non-null — or a bare array of per-test entries; it is
never one of the spec's three tagged `ProgramResult` shapes. -/
theorem report_shapes_actual (timeoutMillis : Nat) (cobs : Except Unit CompileOutput)
    (dirRead : Except Unit (List RPath)) (env : RPath → ProcObs) (fs : RPath → String)
    (j : Json) (h : invoke_testing timeoutMillis cobs dirRead env fs = some j) :
    (isInitialErrorReport j = true ∨ isTestArray j = true) ∧ specReportShape j = false := by
  unfold invoke_testing at h
  cases hcomp : compile cobs with
  | error e =>
    rw [hcomp] at h
    injection h with h
    subst h
    exact ⟨Or.inl rfl, rfl⟩
  | ok cr =>
    cases cr with
    | CompilationError e =>
      rw [hcomp] at h
      injection h with h
      subst h
      exact ⟨Or.inl rfl, rfl⟩
    | Successful =>
      rw [hcomp] at h
      cases hrun : run_testing timeoutMillis dirRead env fs with
      | none => rw [hrun] at h; exact absurd h (by simp)
      | some r =>
        rw [hrun] at h
        cases r with
        | error e =>
          injection h with h
          subst h
          exact ⟨Or.inl rfl, rfl⟩
        | ok l =>
          injection h with h
          subst h
          exact ⟨Or.inr (isTestArray_serializeList l), rfl⟩

/-- Witness for the amended C3 at a concrete input: a compilation failure
with diagnostic `boom`. -/
theorem report_shapes_actual_witness :
    (isInitialErrorReport
        (Json.obj [("compilation_message", Json.str "boom"), ("internal_error", Json.null)]) = true ∨
      isTestArray
        (Json.obj [("compilation_message", Json.str "boom"), ("internal_error", Json.null)]) = true) ∧
    specReportShape
        (Json.obj [("compilation_message", Json.str "boom"), ("internal_error", Json.null)])
      = false :=
  report_shapes_actual 1000 (Except.ok ⟨some 1, [98, 111, 111, 109]⟩) (Except.ok [])
    (fun _ => obsAllOk) (fun _ => "")
    (Json.obj [("compilation_message", Json.str "boom"), ("internal_error", Json.null)]) rfl

/-- C4 counterexample: a run that reaches testing (one test, which times
out) produces a bare JSON array; no run-level `testing_outcome` (nor any
`TestingResult` wrapper) occurs anywhere in the report, contradicting "the
run-level testingOutcome in the report equals the outcome of the last
element of the tests sequence". -/
theorem no_run_level_outcome :
    invoke_testing 1000 (Except.ok ⟨some 0, []⟩) (Except.ok [⟨"1", some "in"⟩])
        (fun _ => obsTimedOut) (fun _ => "x")
      = some (Json.arr [Json.obj [("test_id", Json.num 1), ("test_result", Json.str "Timeout")]]) ∧
    jsonMentionsKey "testing_outcome"
        (Json.arr [Json.obj [("test_id", Json.num 1), ("test_result", Json.str "Timeout")]])
      = false ∧
    jsonMentionsKey "TestingResult"
        (Json.arr [Json.obj [("test_id", Json.num 1), ("test_result", Json.str "Timeout")]])
      = false :=
  ⟨rfl, rfl, rfl⟩

/-- C4 (amended): for every run that reaches testing, the report is the
serialized tests sequence alone — a bare array — and contains no run-level
`testing_outcome` field at all (the `TestLog::outcome` derivation declared
in main.rs is never invoked). -/
theorem testing_report_is_list_alone (timeoutMillis : Nat) (cobs : Except Unit CompileOutput)
    (dirRead : Except Unit (List RPath)) (env : RPath → ProcObs) (fs : RPath → String)
    (l : List OneTestResult)
    (hc : compile cobs = Except.ok CompilationResult.Successful)
    (hr : run_testing timeoutMillis dirRead env fs = some (Except.ok l)) :
    invoke_testing timeoutMillis cobs dirRead env fs = some (serializeList l) ∧
    jsonMentionsKey "testing_outcome" (serializeList l) = false := by
  refine ⟨?_, list_no_testing_outcome l⟩
  simp only [invoke_testing, hc, hr]

/-- Witness for the amended C4 at a concrete input: one timed-out test. -/
theorem testing_report_is_list_alone_witness :
    invoke_testing 1000 (Except.ok ⟨some 0, []⟩) (Except.ok [⟨"1", some "in"⟩])
        (fun _ => obsTimedOut) (fun _ => "x")
      = some (serializeList [⟨1, TestOutcome.Timeout⟩]) ∧
    jsonMentionsKey "testing_outcome" (serializeList [⟨1, TestOutcome.Timeout⟩]) = false :=
  testing_report_is_list_alone 1000 (Except.ok ⟨some 0, []⟩) (Except.ok [⟨"1", some "in"⟩])
    (fun _ => obsTimedOut) (fun _ => "x") [⟨1, TestOutcome.Timeout⟩] rfl rfl

/-- A member of an insertion is the inserted element or an old member. -/
theorem mem_insertById (x y : RPath × Nat) (l : List (RPath × Nat)) :
    y ∈ insertById x l → y = x ∨ y ∈ l := by
  induction l with
  | nil =>
    intro h
    simp [insertById] at h
    exact Or.inl h
  | cons z zs ih =>
    intro h
    rw [insertById] at h
    by_cases hx : x.2 ≤ z.2
    · rw [if_pos hx] at h
      rcases List.mem_cons.mp h with rfl | h
      · exact Or.inl rfl
      · exact Or.inr h
    · rw [if_neg hx] at h
      rcases List.mem_cons.mp h with rfl | h
      · exact Or.inr (List.mem_cons_self _ _)
      · rcases ih h with rfl | h2
        · exact Or.inl rfl
        · exact Or.inr (List.mem_cons_of_mem _ h2)

/-- Insertion keeps the list pairwise ordered by id. -/
theorem pairwise_insertById (x : RPath × Nat) (l : List (RPath × Nat))
    (h : l.Pairwise (fun a b => a.2 ≤ b.2)) :
    (insertById x l).Pairwise (fun a b => a.2 ≤ b.2) := by
  induction l with
  | nil => simp [insertById]
  | cons y ys ih =>
    rw [insertById]
    rw [List.pairwise_cons] at h
    by_cases hx : x.2 ≤ y.2
    · rw [if_pos hx]
      refine List.Pairwise.cons ?_ (List.Pairwise.cons h.1 h.2)
      intro z hz
      rcases List.mem_cons.mp hz with rfl | hz
      · exact hx
      · exact le_trans hx (h.1 z hz)
    · rw [if_neg hx]
      refine List.Pairwise.cons ?_ (ih h.2)
      intro z hz
      rcases mem_insertById x z ys hz with rfl | hz
      · exact le_of_not_le hx
      · exact h.1 z hz

/-- The discovery sort produces a pairwise id-ordered list. -/
theorem pairwise_sortById (l : List (RPath × Nat)) :
    (sortById l).Pairwise (fun a b => a.2 ≤ b.2) := by
  induction l with
  | nil => simp [sortById]
  | cons x xs ih => exact pairwise_insertById x (sortById xs) ih

/-- The ids the loop reports are an initial segment of the ids it was
driven with. -/
theorem failFast_ids_initial (xs : List (Nat × Except TestError TestOutcome)) :
    (failFast xs).map (fun r => r.test_id) <+: xs.map (fun q => q.1) := by
  induction xs with
  | nil => exact ⟨[], rfl⟩
  | cons hd tl ih =>
    obtain ⟨i, r⟩ := hd
    cases r with
    | error e =>
      refine ⟨tl.map (fun q => q.1), ?_⟩
      rfl
    | ok o =>
      cases o with
      | Success =>
        obtain ⟨t, ht⟩ := ih
        refine ⟨t, ?_⟩
        show (i :: (failFast tl).map (fun r => r.test_id)) ++ t
              = i :: tl.map (fun q => q.1)
        rw [List.cons_append, ht]
      | Timeout =>
        refine ⟨tl.map (fun q => q.1), ?_⟩
        rfl
      | WrongOutput a b =>
        refine ⟨tl.map (fun q => q.1), ?_⟩
        rfl
      | SlightlyWrongOutput a b =>
        refine ⟨tl.map (fun q => q.1), ?_⟩
        rfl
      | InternalError =>
        refine ⟨tl.map (fun q => q.1), ?_⟩
        rfl

/-- C7: over a readable test directory, discovery keeps exactly the `in`
files, pairs each with the co-located `out` file, parses ids from the file
stems and sorts ascending (see `discoveredSorted` and `run_testing`); the
reported sequence is therefore non-decreasing in id and an initial
segment of the full discovered, sorted set. -/
theorem run_testing_sorted_ids (timeoutMillis : Nat) (files : List RPath)
    (env : RPath → ProcObs) (fs : RPath → String) (l : List OneTestResult)
    (h : run_testing timeoutMillis (Except.ok files) env fs = some (Except.ok l)) :
    (l.map (fun r => r.test_id)).Pairwise (· ≤ ·) ∧
    (∀ sorted, discoveredSorted files = some sorted →
      l.map (fun r => r.test_id) <+: sorted.map (fun q => q.2)) := by
  simp only [run_testing] at h
  cases hd : discoveredSorted files with
  | none => rw [hd] at h; exact absurd h (by simp)
  | some sorted =>
    rw [hd] at h
    injection h with h
    injection h with h
    subst h
    have hxs : (sorted.map (fun q : RPath × Nat =>
          (q.2, (test timeoutMillis fs (env q.1) q.1 (q.1.setExtension "out")).1))).map
            (fun q => q.1)
        = sorted.map (fun q => q.2) := by
      rw [List.map_map]
      rfl
    have hpref := failFast_ids_initial (sorted.map (fun q : RPath × Nat =>
      (q.2, (test timeoutMillis fs (env q.1) q.1 (q.1.setExtension "out")).1)))
    rw [hxs] at hpref
    have hsorted : (sorted.map (fun q : RPath × Nat => q.2)).Pairwise (· ≤ ·) := by
      obtain ⟨tagged, _, htag⟩ := Option.map_eq_some'.mp hd
      rw [List.pairwise_map]
      rw [htag.symm] at *
      exact pairwise_sortById tagged
    exact ⟨List.Pairwise.sublist hpref.sublist hsorted,
           fun sorted2 hd2 => by injection hd2 with hd2; exact hd2 ▸ hpref⟩

/-- Witness for C7 at a concrete directory: files `2.in`, `1.in` and
`3.txt`; the run reports ids `[1, 2]`, ascending, an initial segment of
the discovered set `[1, 2]`. -/
theorem run_testing_sorted_ids_witness :
    (([⟨1, TestOutcome.Success⟩, ⟨2, TestOutcome.Success⟩] : List OneTestResult).map
        (fun r => r.test_id)).Pairwise (· ≤ ·) ∧
    (∀ sorted,
      discoveredSorted [⟨"2", some "in"⟩, ⟨"1", some "in"⟩, ⟨"3", some "txt"⟩] = some sorted →
      ([⟨1, TestOutcome.Success⟩, ⟨2, TestOutcome.Success⟩] : List OneTestResult).map
          (fun r => r.test_id) <+: sorted.map (fun q => q.2)) :=
  run_testing_sorted_ids 1000 [⟨"2", some "in"⟩, ⟨"1", some "in"⟩, ⟨"3", some "txt"⟩]
    (fun _ => obsAllOk) (fun _ => "x") [⟨1, TestOutcome.Success⟩, ⟨2, TestOutcome.Success⟩] rfl

end Alsit
